import Mathlib

/-!
Verification of the `token-bucket` keyed rate-limiting library.

The bucket table (`self._buckets`, a Python `dict`) is embedded as an
association list from keys to bucket records.  Token counts, rates and
timestamps are Python floats; they are modelled as exact rationals (`ℚ`),
matching the spec's "up to floating-point tolerance" reading of the
arithmetic.  Each storage method samples the clock at most once per call;
that sample (`time.monotonic()` in `MemoryStorage`, `time.time()` in the
legacy concrete `StorageBase`) is passed in as the explicit `now`
argument.  A Python `KeyError` escaping a method is modelled by an
`Option`-shaped result carrying the unchanged table.
-/

/-- One bucket entry: the pair `(tokens, last_replenished_at)` stored per key. -/
structure Bucket where
  tokens : ℚ
  last_replenished_at : ℚ
deriving DecidableEq, Repr

/-- The key → bucket table (`self._buckets`). -/
abbrev Buckets := List (String × Bucket)

/-- `self._buckets[key]` — dict lookup; `none` models a raised `KeyError`. -/
def lookupBucket (key : String) : Buckets → Option Bucket
  | [] => none
  | (k, b) :: rest => if k = key then some b else lookupBucket key rest

/-- `self._buckets[key] = b` — dict item assignment (replace or append). -/
def setBucket (key : String) (b : Bucket) : Buckets → Buckets
  | [] => [(key, b)]
  | (k, v) :: rest =>
      if k = key then (key, b) :: rest else (k, v) :: setBucket key b rest

namespace MemoryStorage

/-- `MemoryStorage.get_token_count` (src/token_bucket/storage.py): returns the
stored token count, or `0` on `KeyError`; the table is not mutated, so the
returned state is the input table. -/
def get_token_count (s : Buckets) (key : String) : ℚ × Buckets :=
  match lookupBucket key s with
  | some b => (b.tokens, s)
  | none => (0, s)

/-- `MemoryStorage.replenish` (src/token_bucket/storage.py): on `KeyError`
create the bucket full at `now`; otherwise skip when `now` is older than the
recorded timestamp, else write the capped replenished pair. -/
def replenish (s : Buckets) (key : String) (rate capacity now : ℚ) : Buckets :=
  match lookupBucket key s with
  | some b =>
      if now < b.last_replenished_at then s
      else
        setBucket key
          ⟨min capacity (b.tokens + rate * (now - b.last_replenished_at)), now⟩ s
  | none => setBucket key ⟨capacity, now⟩ s

/-- `MemoryStorage.consume` (src/token_bucket/storage.py): reads
`self._buckets[key][0]` (a missing key raises `KeyError`, modelled as a `none`
verdict with the table untouched); below the threshold returns `False` without
mutation, otherwise decrements the token slot in place and returns `True`. -/
def consume (s : Buckets) (key : String) (num_tokens : ℚ) : Option Bool × Buckets :=
  match lookupBucket key s with
  | none => (none, s)
  | some b =>
      if b.tokens < num_tokens then (some false, s)
      else (some true, setBucket key ⟨b.tokens - num_tokens, b.last_replenished_at⟩ s)

end MemoryStorage

namespace StorageBase

/-- Legacy concrete `StorageBase.get_token_count`
(src/token_bucket/storage_base.py), identical body to the memory engine's. -/
def get_token_count (s : Buckets) (key : String) : ℚ × Buckets :=
  match lookupBucket key s with
  | some b => (b.tokens, s)
  | none => (0, s)

/-- Legacy concrete `StorageBase.replenish` (src/token_bucket/storage_base.py):
`try` the lookup, `except KeyError` create the bucket full, `else` sample `now`,
suppress regressing writes, and write back the capped tuple. -/
def replenish (s : Buckets) (key : String) (rate capacity now : ℚ) : Buckets :=
  match lookupBucket key s with
  | none => setBucket key ⟨capacity, now⟩ s
  | some b =>
      if now < b.last_replenished_at then s
      else
        setBucket key
          ⟨min capacity (b.tokens + rate * (now - b.last_replenished_at)), now⟩ s

/-- Legacy concrete `StorageBase.consume` (src/token_bucket/storage_base.py):
reads the `(tokens_in_bucket, timestamp)` tuple (`KeyError` on a missing key),
returns `False` without mutation when short, otherwise writes back
`(tokens_in_bucket - num_tokens, timestamp)` and returns `True`. -/
def consume (s : Buckets) (key : String) (num_tokens : ℚ) : Option Bool × Buckets :=
  match lookupBucket key s with
  | none => (none, s)
  | some b =>
      if b.tokens < num_tokens then (some false, s)
      else (some true, setBucket key ⟨b.tokens - num_tokens, b.last_replenished_at⟩ s)

end StorageBase

/-- A dynamically-typed Python value, as far as the Limiter's `isinstance`
checks can distinguish them. -/
inductive PyVal
  | vNone
  | vBool (b : Bool)
  | vInt (n : ℤ)
  | vFloat (q : ℚ)
  | vStr (s : String)
deriving DecidableEq, Repr

namespace PyVal

/-- `isinstance(x, (float, int))` — Python `bool` is a subclass of `int`. -/
def isNumeric : PyVal → Bool
  | vInt _ => true
  | vFloat _ => true
  | vBool _ => true
  | _ => false

/-- `isinstance(x, int)` — Python `bool` is a subclass of `int`. -/
def isInt : PyVal → Bool
  | vInt _ => true
  | vBool _ => true
  | _ => false

/-- Numeric value of a Python number (`True == 1`, `False == 0`). -/
def toRat : PyVal → ℚ
  | vInt n => (n : ℚ)
  | vFloat q => q
  | vBool b => if b then 1 else 0
  | _ => 0

/-- Integer value of a Python `int` (or `bool`). -/
def toInt : PyVal → ℤ
  | vInt n => n
  | vBool b => if b then 1 else 0
  | _ => 0

end PyVal

/-- The two error kinds the Limiter raises: `TypeError` and `ValueError`,
carrying the message from the source. -/
inductive LimiterError
  | typeError (msg : String)
  | valueError (msg : String)
deriving DecidableEq, Repr

namespace Limiter

/-- `Limiter.__init__` (src/src/token_bucket/limiter.py): validates `rate`,
`capacity` and `storage` in source order; `storageIsStorageBase` stands for
`isinstance(storage, StorageBase)`.  On success the limiter's state is the
validated `(rate, capacity)` pair. -/
def init (rate capacity : PyVal) (storageIsStorageBase : Bool) :
    Except LimiterError (ℚ × ℤ) :=
  if ¬ rate.isNumeric then
    .error (.typeError "rate must be an int or float")
  else if rate.toRat ≤ 0 then
    .error (.valueError "rate must be > 0")
  else if ¬ capacity.isInt then
    .error (.typeError "capacity must be an int")
  else if capacity.toInt < 1 then
    .error (.valueError "capacity must be >= 1")
  else if ¬ storageIsStorageBase then
    .error (.typeError "storage must be a subclass of StorageBase")
  else
    .ok (rate.toRat, capacity.toInt)

/-- `Limiter.consume` (src/src/token_bucket/limiter.py) over the in-memory
engine: `key` is a string or `None` (`none`), `num_tokens` an int or `None`.
`if not key` fires for `None` (TypeError) and for the empty string
(ValueError); `num_tokens` gets the same split; then exactly one
`storage.replenish` followed by one `storage.consume`. -/
def consume (rate : ℚ) (capacity : ℤ) (s : Buckets)
    (key : Option String) (num_tokens : Option ℤ) (now : ℚ) :
    Except LimiterError (Option Bool × Buckets) :=
  match key with
  | none => .error (.typeError "key may not be None")
  | some k =>
      if k = "" then
        .error (.valueError "key must not be a non-empty string or bytestring")
      else
        match num_tokens with
        | none => .error (.typeError "num_tokens may not be None")
        | some n =>
            if n < 1 then
              .error (.valueError "num_tokens must be >= 1")
            else
              let s1 := MemoryStorage.replenish s k rate (capacity : ℚ) now
              .ok (MemoryStorage.consume s1 k (n : ℚ))

end Limiter

/-- A sequential operation on the in-memory storage engine, with the clock
sample of a `replenish` call made explicit. -/
inductive Op
  | rep (key : String) (rate capacity now : ℚ)
  | con (key : String) (num_tokens : ℚ)
deriving DecidableEq, Repr

/-- Apply one operation to the table (the boolean verdict of a consume is
discarded; only the state matters for the traces). -/
def stepOp (s : Buckets) : Op → Buckets
  | .rep k r c now => MemoryStorage.replenish s k r c now
  | .con k n => (MemoryStorage.consume s k n).2

/-- Run a sequence of operations starting from the empty table. -/
def runOps (ops : List Op) : Buckets := ops.foldl stepOp []

/-- The clock sample of a replenish operation is at most `T` (consumes take no
sample). -/
def Op.timeLe (T : ℚ) : Op → Prop
  | .rep _ _ _ now => now ≤ T
  | .con _ _ => True

instance (T : ℚ) (op : Op) : Decidable (Op.timeLe T op) := by
  cases op <;> simp [Op.timeLe] <;> infer_instance

/-- Every recorded timestamp in the table is at most `T`. -/
def allLastLe (s : Buckets) (T : ℚ) : Prop :=
  ∀ k b, lookupBucket k s = some b → b.last_replenished_at ≤ T

theorem lookupBucket_setBucket_self (key : String) (b : Bucket) (s : Buckets) :
    lookupBucket key (setBucket key b s) = some b := by
  induction s with
  | nil => simp [setBucket, lookupBucket]
  | cons hd tl ih =>
      obtain ⟨k, v⟩ := hd
      by_cases h : k = key
      · simp [setBucket, h, lookupBucket]
      · simp [setBucket, h, lookupBucket, ih]

theorem lookupBucket_setBucket_ne (key k' : String) (b : Bucket) (s : Buckets)
    (h : k' ≠ key) :
    lookupBucket k' (setBucket key b s) = lookupBucket k' s := by
  induction s with
  | nil => simp [setBucket, lookupBucket, Ne.symm h]
  | cons hd tl ih =>
      obtain ⟨k, v⟩ := hd
      by_cases hk : k = key
      · subst hk
        simp [setBucket, lookupBucket, Ne.symm h]
      · simp only [setBucket, if_neg hk, lookupBucket]
        by_cases hk' : k = k' <;> simp [hk', ih]

theorem lookupBucket_replenish_ne (s : Buckets) (k key : String)
    (rate capacity now : ℚ) (h : key ≠ k) :
    lookupBucket key (MemoryStorage.replenish s k rate capacity now) =
      lookupBucket key s := by
  unfold MemoryStorage.replenish
  cases hlk : lookupBucket k s with
  | none => exact lookupBucket_setBucket_ne k key _ s h
  | some b =>
      by_cases hskip : now < b.last_replenished_at
      · simp [hskip]
      · simp only [hskip, if_false]
        exact lookupBucket_setBucket_ne k key _ s h

theorem lookupBucket_consume_ne (s : Buckets) (k key : String) (n : ℚ)
    (h : key ≠ k) :
    lookupBucket key ((MemoryStorage.consume s k n).2) = lookupBucket key s := by
  unfold MemoryStorage.consume
  cases hlk : lookupBucket k s with
  | none => rfl
  | some b =>
      by_cases hc : b.tokens < n
      · simp [hc]
      · simp only [hc, if_false]
        exact lookupBucket_setBucket_ne k key _ s h

/-- C1: for an existing bucket `(t0, t1)` and a replenish sampled at
`t2 ≥ t1`, the call writes back exactly
`(min(capacity, t0 + rate * (t2 - t1)), t2)`. -/
theorem replenish_formula (s : Buckets) (key : String) (rate capacity t0 t1 t2 : ℚ)
    (hb : lookupBucket key s = some ⟨t0, t1⟩) (ht : t1 ≤ t2) :
    lookupBucket key (MemoryStorage.replenish s key rate capacity t2) =
      some ⟨min capacity (t0 + rate * (t2 - t1)), t2⟩ := by
  simp only [MemoryStorage.replenish, hb]
  rw [if_neg (not_lt.mpr ht)]
  exact lookupBucket_setBucket_self key _ s

/-- C1 witness: concrete instance with `t0 = 2`, `t1 = 5`, `t2 = 7`,
`rate = 3`, `capacity = 100`. -/
theorem replenish_formula_witness :
    lookupBucket "k" [("k", (⟨2, 5⟩ : Bucket))] = some ⟨2, 5⟩ ∧ (5 : ℚ) ≤ 7 ∧
    lookupBucket "k" (MemoryStorage.replenish [("k", ⟨2, 5⟩)] "k" 3 100 7) =
      some ⟨min 100 (2 + 3 * (7 - 5)), 7⟩ :=
  ⟨by decide, by norm_num,
    replenish_formula [("k", ⟨2, 5⟩)] "k" 3 100 2 5 7 (by decide) (by norm_num)⟩

/-- C2: `consume` is all-or-nothing — with the bucket holding `b.tokens`,
either `b.tokens < n` and it returns `False` with the table untouched, or
`n ≤ b.tokens` and it returns `True` with the bucket debited by exactly `n`
(timestamp kept). -/
theorem consume_all_or_nothing (s : Buckets) (key : String) (n : ℚ) (b : Bucket)
    (hb : lookupBucket key s = some b) :
    (b.tokens < n → MemoryStorage.consume s key n = (some false, s)) ∧
    (n ≤ b.tokens →
      (MemoryStorage.consume s key n).1 = some true ∧
      lookupBucket key (MemoryStorage.consume s key n).2 =
        some ⟨b.tokens - n, b.last_replenished_at⟩) := by
  constructor
  · intro h
    simp [MemoryStorage.consume, hb, h]
  · intro h
    simp [MemoryStorage.consume, hb, not_lt.mpr h, lookupBucket_setBucket_self]

/-- C2 witness: a bucket holding `5` tokens; consuming `7` fails and leaves the
table unchanged, consuming `3` succeeds leaving `2` tokens. -/
theorem consume_all_or_nothing_witness :
    (((5 : ℚ) < 7 → MemoryStorage.consume [("k", ⟨5, 1⟩)] "k" 7 =
        (some false, [("k", ⟨5, 1⟩)])) ∧
      ((7 : ℚ) ≤ 5 →
        (MemoryStorage.consume [("k", ⟨5, 1⟩)] "k" 7).1 = some true ∧
        lookupBucket "k" (MemoryStorage.consume [("k", ⟨5, 1⟩)] "k" 7).2 =
          some ⟨5 - 7, 1⟩)) ∧
    (((5 : ℚ) < 3 → MemoryStorage.consume [("k", ⟨5, 1⟩)] "k" 3 =
        (some false, [("k", ⟨5, 1⟩)])) ∧
      ((3 : ℚ) ≤ 5 →
        (MemoryStorage.consume [("k", ⟨5, 1⟩)] "k" 3).1 = some true ∧
        lookupBucket "k" (MemoryStorage.consume [("k", ⟨5, 1⟩)] "k" 3).2 =
          some ⟨5 - 3, 1⟩)) :=
  ⟨consume_all_or_nothing [("k", ⟨5, 1⟩)] "k" 7 ⟨5, 1⟩ (by decide),
    consume_all_or_nothing [("k", ⟨5, 1⟩)] "k" 3 ⟨5, 1⟩ (by decide)⟩

/-- C5: an unknown key reads as `0` tokens; the first replenish for it creates
the bucket full (`tokens = capacity`, timestamp `now`), after which the count
reads as `capacity`. -/
theorem lazy_creation (s : Buckets) (key : String) (rate capacity now : ℚ)
    (h : lookupBucket key s = none) :
    (MemoryStorage.get_token_count s key).1 = 0 ∧
    lookupBucket key (MemoryStorage.replenish s key rate capacity now) =
      some ⟨capacity, now⟩ ∧
    (MemoryStorage.get_token_count
        (MemoryStorage.replenish s key rate capacity now) key).1 = capacity := by
  have h2 : lookupBucket key (MemoryStorage.replenish s key rate capacity now) =
      some ⟨capacity, now⟩ := by
    simp [MemoryStorage.replenish, h, lookupBucket_setBucket_self]
  exact ⟨by simp [MemoryStorage.get_token_count, h], h2,
    by simp [MemoryStorage.get_token_count, h2]⟩

/-- C5 witness: the empty table, key `"k"`, `rate = 2`, `capacity = 10`,
`now = 3`. -/
theorem lazy_creation_witness :
    (MemoryStorage.get_token_count [] "k").1 = 0 ∧
    lookupBucket "k" (MemoryStorage.replenish [] "k" 2 10 3) = some ⟨10, 3⟩ ∧
    (MemoryStorage.get_token_count (MemoryStorage.replenish [] "k" 2 10 3) "k").1 =
      10 :=
  lazy_creation [] "k" 2 10 3 (by decide)

/-- C8: `get_token_count` never mutates the table (the returned state is the
input table, for known and unknown keys alike), so an immediately repeated
call returns the same value. -/
theorem get_token_count_pure (s : Buckets) (key : String) :
    (MemoryStorage.get_token_count s key).2 = s ∧
    (MemoryStorage.get_token_count
        (MemoryStorage.get_token_count s key).2 key).1 =
      (MemoryStorage.get_token_count s key).1 := by
  cases h : lookupBucket key s <;> simp [MemoryStorage.get_token_count, h]

/-- C9: `MemoryStorage.consume` on a never-replenished key raises `KeyError`
(the `none` verdict) instead of returning a boolean, with the table left
unchanged. -/
theorem consume_unknown_key (s : Buckets) (key : String) (n : ℚ)
    (h : lookupBucket key s = none) :
    MemoryStorage.consume s key n = (none, s) := by
  simp [MemoryStorage.consume, h]

/-- C9 witness: consuming from the empty table. -/
theorem consume_unknown_key_witness :
    MemoryStorage.consume [] "k" 1 = (none, []) :=
  consume_unknown_key [] "k" 1 (by decide)

/-- C10: the two concrete engine generations, parameterized over the same
clock samples, are observationally equivalent: `replenish` produces the same
table, `consume` the same verdict and table, `get_token_count` the same
count and table. -/
theorem storage_engines_equivalent (s : Buckets) (key : String)
    (rate capacity now n : ℚ) :
    StorageBase.replenish s key rate capacity now =
      MemoryStorage.replenish s key rate capacity now ∧
    StorageBase.consume s key n = MemoryStorage.consume s key n ∧
    StorageBase.get_token_count s key = MemoryStorage.get_token_count s key := by
  refine ⟨?_, ?_, ?_⟩ <;>
    cases h : lookupBucket key s <;>
      simp [StorageBase.replenish, MemoryStorage.replenish,
        StorageBase.consume, MemoryStorage.consume,
        StorageBase.get_token_count, MemoryStorage.get_token_count, h]

theorem lookupBucket_replenish_self_mono (s : Buckets) (key : String)
    (rate capacity now : ℚ) (b : Bucket) (hb : lookupBucket key s = some b) :
    ∃ b', lookupBucket key (MemoryStorage.replenish s key rate capacity now) =
        some b' ∧ b.last_replenished_at ≤ b'.last_replenished_at := by
  simp only [MemoryStorage.replenish, hb]
  by_cases hskip : now < b.last_replenished_at
  · exact ⟨b, by simp [hskip, hb], le_refl _⟩
  · exact ⟨⟨min capacity (b.tokens + rate * (now - b.last_replenished_at)), now⟩,
      by simp [hskip, lookupBucket_setBucket_self], not_lt.mp hskip⟩

theorem lookupBucket_consume_self_last (s : Buckets) (key : String) (n : ℚ)
    (b : Bucket) (hb : lookupBucket key s = some b) :
    ∃ b', lookupBucket key ((MemoryStorage.consume s key n).2) = some b' ∧
      b'.last_replenished_at = b.last_replenished_at := by
  simp only [MemoryStorage.consume, hb]
  by_cases hc : b.tokens < n
  · exact ⟨b, by simp [hc, hb], rfl⟩
  · exact ⟨⟨b.tokens - n, b.last_replenished_at⟩,
      by simp [hc, lookupBucket_setBucket_self], rfl⟩

theorem stepOp_timestamp_mono (s : Buckets) (op : Op) (key : String) (b : Bucket)
    (hb : lookupBucket key s = some b) :
    ∃ b', lookupBucket key (stepOp s op) = some b' ∧
      b.last_replenished_at ≤ b'.last_replenished_at := by
  cases op with
  | rep k r c now =>
      by_cases hk : key = k
      · subst hk
        exact lookupBucket_replenish_self_mono s key r c now b hb
      · exact ⟨b, by simpa [stepOp, lookupBucket_replenish_ne s k key r c now hk], le_refl _⟩
  | con k n =>
      by_cases hk : key = k
      · subst hk
        obtain ⟨b', hb', he⟩ := lookupBucket_consume_self_last s key n b hb
        exact ⟨b', hb', le_of_eq he.symm⟩
      · exact ⟨b, by simpa [stepOp, lookupBucket_consume_ne s k key n hk], le_refl _⟩

theorem foldl_timestamp_mono (ops : List Op) :
    ∀ (s : Buckets) (key : String) (b : Bucket), lookupBucket key s = some b →
    ∃ b', lookupBucket key (ops.foldl stepOp s) = some b' ∧
      b.last_replenished_at ≤ b'.last_replenished_at := by
  induction ops with
  | nil => exact fun s key b hb => ⟨b, hb, le_refl _⟩
  | cons op rest ih =>
      intro s key b hb
      obtain ⟨b1, hb1, h1⟩ := stepOp_timestamp_mono s op key b hb
      obtain ⟨b', hb', h2⟩ := ih (stepOp s op) key b1 hb1
      exact ⟨b', by simpa using hb', h1.trans h2⟩

/-- C4: a replenish whose sampled `now` is older than the recorded timestamp
returns with the table entirely unchanged, and consequently along any sequence
of operations each key's recorded timestamp is monotonically non-decreasing. -/
theorem replenish_skip_and_timestamp_mono :
    (∀ (s : Buckets) (key : String) (rate capacity now : ℚ) (b : Bucket),
        lookupBucket key s = some b → now < b.last_replenished_at →
        MemoryStorage.replenish s key rate capacity now = s) ∧
    (∀ (ops : List Op) (s : Buckets) (key : String) (b b' : Bucket),
        lookupBucket key s = some b →
        lookupBucket key (ops.foldl stepOp s) = some b' →
        b.last_replenished_at ≤ b'.last_replenished_at) := by
  constructor
  · intro s key rate capacity now b hb hlt
    simp [MemoryStorage.replenish, hb, hlt]
  · intro ops s key b b' hb hb'
    obtain ⟨b'', hb'', hle⟩ := foldl_timestamp_mono ops s key b hb
    rw [hb'] at hb''
    cases hb''
    exact hle

/-- C4 witness: a stale replenish at `now = 2` against a timestamp `5` leaves
the table unchanged, and a concrete two-operation trace does not decrease the
recorded timestamp. -/
theorem replenish_skip_and_timestamp_mono_witness :
    (lookupBucket "k" [("k", (⟨3, 5⟩ : Bucket))] = some ⟨3, 5⟩ ∧ (2 : ℚ) < 5 ∧
      MemoryStorage.replenish [("k", ⟨3, 5⟩)] "k" 1 10 2 = [("k", ⟨3, 5⟩)]) ∧
    (lookupBucket "k" [("k", (⟨3, 5⟩ : Bucket))] = some ⟨3, 5⟩ ∧
      lookupBucket "k"
          ([Op.rep "k" 1 10 6, Op.con "k" 2].foldl stepOp [("k", ⟨3, 5⟩)]) =
        some ⟨2, 6⟩ ∧
      (5 : ℚ) ≤ 6) :=
  ⟨⟨by decide, by norm_num,
      replenish_skip_and_timestamp_mono.1 [("k", ⟨3, 5⟩)] "k" 1 10 2 ⟨3, 5⟩
        (by decide) (by norm_num)⟩,
    ⟨by decide,
      by norm_num [stepOp, MemoryStorage.replenish, MemoryStorage.consume,
        lookupBucket, setBucket, min_def],
      replenish_skip_and_timestamp_mono.2 [Op.rep "k" 1 10 6, Op.con "k" 2]
        [("k", ⟨3, 5⟩)] "k" ⟨3, 5⟩ ⟨2, 6⟩ (by decide)
        (by norm_num [stepOp, MemoryStorage.replenish, MemoryStorage.consume,
          lookupBucket, setBucket, min_def])⟩⟩

theorem allLastLe_replenish (s : Buckets) (key : String) (rate capacity now T : ℚ)
    (hs : allLastLe s T) (hnow : now ≤ T) :
    allLastLe (MemoryStorage.replenish s key rate capacity now) T := by
  intro k b hb
  by_cases hk : k = key
  · subst hk
    cases hlk : lookupBucket k s with
    | none =>
        simp only [MemoryStorage.replenish, hlk, lookupBucket_setBucket_self,
          Option.some.injEq] at hb
        cases hb
        exact hnow
    | some b0 =>
        by_cases hskip : now < b0.last_replenished_at
        · simp only [MemoryStorage.replenish, hlk, if_pos hskip] at hb
          exact hs k b (hlk.trans hb)
        · simp only [MemoryStorage.replenish, hlk, if_neg hskip,
            lookupBucket_setBucket_self, Option.some.injEq] at hb
          cases hb
          exact hnow
  · rw [lookupBucket_replenish_ne s key k rate capacity now hk] at hb
    exact hs k b hb

theorem allLastLe_consume (s : Buckets) (key : String) (n T : ℚ)
    (hs : allLastLe s T) :
    allLastLe ((MemoryStorage.consume s key n).2) T := by
  intro k b hb
  by_cases hk : k = key
  · subst hk
    cases hlk : lookupBucket k s with
    | none =>
        simp only [MemoryStorage.consume, hlk] at hb
        exact Option.noConfusion hb
    | some b0 =>
        by_cases hc : b0.tokens < n
        · simp only [MemoryStorage.consume, hlk, if_pos hc] at hb
          exact hs k b (hlk.trans hb)
        · simp only [MemoryStorage.consume, hlk, if_neg hc,
            lookupBucket_setBucket_self, Option.some.injEq] at hb
          cases hb
          exact hs k b0 hlk
  · rw [lookupBucket_consume_ne s key k n hk] at hb
    exact hs k b hb

theorem allLastLe_foldl (ops : List Op) :
    ∀ (s : Buckets) (T : ℚ), allLastLe s T → (∀ op ∈ ops, Op.timeLe T op) →
    allLastLe (ops.foldl stepOp s) T := by
  induction ops with
  | nil => exact fun s T hs _ => hs
  | cons op rest ih =>
      intro s T hs hops
      rw [List.foldl_cons]
      refine ih (stepOp s op) T ?_ fun o ho => hops o (List.mem_cons_of_mem op ho)
      have hop := hops op (List.mem_cons_self op rest)
      cases op with
      | rep k r c now => exact allLastLe_replenish s k r c now T hs hop
      | con k n => exact allLastLe_consume s k n T hs

theorem replenish_tokens_le_capacity (s : Buckets) (key : String)
    (rate capacity now : ℚ) (hs : allLastLe s now) :
    (MemoryStorage.get_token_count
        (MemoryStorage.replenish s key rate capacity now) key).1 ≤ capacity := by
  cases hlk : lookupBucket key s with
  | none =>
      simp only [MemoryStorage.get_token_count, MemoryStorage.replenish, hlk,
        lookupBucket_setBucket_self]
      exact le_refl capacity
  | some b0 =>
      have hles : b0.last_replenished_at ≤ now := hs key b0 hlk
      have hskip : ¬ now < b0.last_replenished_at := not_lt.mpr hles
      simp only [MemoryStorage.get_token_count, MemoryStorage.replenish, hlk,
        if_neg hskip, lookupBucket_setBucket_self]
      exact min_le_left _ _

/-- C3: over any sequential trace from the empty table whose replenish clock
samples never exceed the final call's `now`, the token count of the bucket a
`replenish(key, rate, capacity)` call just updated is at most `capacity` the
instant that call completes. -/
theorem replenish_capacity_bound (ops : List Op) (key : String)
    (rate capacity now : ℚ) (h : ∀ op ∈ ops, Op.timeLe now op) :
    (MemoryStorage.get_token_count
        (runOps (ops ++ [Op.rep key rate capacity now])) key).1 ≤ capacity := by
  have hrun : runOps (ops ++ [Op.rep key rate capacity now]) =
      stepOp (runOps ops) (Op.rep key rate capacity now) := by
    simp [runOps, List.foldl_append]
  have hempty : allLastLe ([] : Buckets) now := by
    intro k b hb
    simp [lookupBucket] at hb
  have hlast : allLastLe (runOps ops) now := allLastLe_foldl ops [] now hempty h
  rw [hrun]
  exact replenish_tokens_le_capacity (runOps ops) key rate capacity now hlast

/-- C3 witness: a two-operation trace followed by a final replenish at
`now = 2` with capacity `5`. -/
theorem replenish_capacity_bound_witness :
    (∀ op ∈ [Op.rep "a" 4 5 0, Op.con "a" 3], Op.timeLe 2 op) ∧
    (MemoryStorage.get_token_count
        (runOps ([Op.rep "a" 4 5 0, Op.con "a" 3] ++ [Op.rep "a" 4 5 2])) "a").1 ≤
      5 :=
  ⟨by decide, replenish_capacity_bound [Op.rep "a" 4 5 0, Op.con "a" 3] "a" 4 5 2
    (by decide)⟩

/-- C6: Scenario B through the Limiter (`rate = 100`, `capacity = 1`),
sequentially from the empty table: consuming 2 tokens returns `False` (it can
never exceed capacity) whatever the call time, consuming 1 from the full
bucket returns `True`, and consuming 1 again with zero elapsed time returns
`False`. -/
theorem limiter_scenario_b (t0 t1 : ℚ) (h : t0 ≤ t1) :
    Limiter.consume 100 1 [] (some "k") (some 2) t0 =
      .ok (some false, [("k", ⟨1, t0⟩)]) ∧
    Limiter.consume 100 1 [("k", ⟨1, t0⟩)] (some "k") (some 1) t1 =
      .ok (some true, [("k", ⟨0, t1⟩)]) ∧
    Limiter.consume 100 1 [("k", ⟨0, t1⟩)] (some "k") (some 1) t1 =
      .ok (some false, [("k", ⟨0, t1⟩)]) := by
  have hk : ("k" : String) ≠ "" := by decide
  refine ⟨?_, ?_, ?_⟩
  · norm_num [Limiter.consume, MemoryStorage.replenish, MemoryStorage.consume,
      lookupBucket, setBucket, hk]
  · have h1 : ¬ t1 < t0 := not_lt.mpr h
    have h2 : min (1 : ℚ) (1 + 100 * (t1 - t0)) = 1 := min_eq_left (by nlinarith)
    norm_num [Limiter.consume, MemoryStorage.replenish, MemoryStorage.consume,
      lookupBucket, setBucket, hk, h1, h2]
  · have h2 : min (1 : ℚ) (0 + 100 * (t1 - t1)) = 0 := by
      rw [sub_self, mul_zero, add_zero]
      exact min_eq_right (by norm_num)
    norm_num [Limiter.consume, MemoryStorage.replenish, MemoryStorage.consume,
      lookupBucket, setBucket, hk, h2]

/-- C6 witness: the scenario with both calls at time `0`. -/
theorem limiter_scenario_b_witness :
    (0 : ℚ) ≤ 0 ∧
    (Limiter.consume 100 1 [] (some "k") (some 2) 0 =
        .ok (some false, [("k", ⟨1, 0⟩)]) ∧
      Limiter.consume 100 1 [("k", ⟨1, 0⟩)] (some "k") (some 1) 0 =
        .ok (some true, [("k", ⟨0, 0⟩)]) ∧
      Limiter.consume 100 1 [("k", ⟨0, 0⟩)] (some "k") (some 1) 0 =
        .ok (some false, [("k", ⟨0, 0⟩)])) :=
  ⟨le_refl 0, limiter_scenario_b 0 0 (le_refl 0)⟩

/-- C7: the Limiter raises exactly the specified error kinds: non-numeric
rate → TypeError; rate ≤ 0 → ValueError; non-integral capacity → TypeError;
capacity < 1 → ValueError; non-conforming storage → TypeError; `None`
key → TypeError; empty key → ValueError; `None` num_tokens → TypeError;
num_tokens < 1 → ValueError. -/
theorem limiter_error_kinds :
    (∀ (rate capacity : PyVal) (st : Bool), rate.isNumeric = false →
        Limiter.init rate capacity st =
          .error (.typeError "rate must be an int or float")) ∧
    (∀ (rate capacity : PyVal) (st : Bool), rate.isNumeric = true →
        rate.toRat ≤ 0 →
        Limiter.init rate capacity st =
          .error (.valueError "rate must be > 0")) ∧
    (∀ (rate capacity : PyVal) (st : Bool), rate.isNumeric = true →
        0 < rate.toRat → capacity.isInt = false →
        Limiter.init rate capacity st =
          .error (.typeError "capacity must be an int")) ∧
    (∀ (rate capacity : PyVal) (st : Bool), rate.isNumeric = true →
        0 < rate.toRat → capacity.isInt = true → capacity.toInt < 1 →
        Limiter.init rate capacity st =
          .error (.valueError "capacity must be >= 1")) ∧
    (∀ (rate capacity : PyVal), rate.isNumeric = true → 0 < rate.toRat →
        capacity.isInt = true → 1 ≤ capacity.toInt →
        Limiter.init rate capacity false =
          .error (.typeError "storage must be a subclass of StorageBase")) ∧
    (∀ (rate : ℚ) (capacity : ℤ) (s : Buckets) (nt : Option ℤ) (now : ℚ),
        Limiter.consume rate capacity s none nt now =
          .error (.typeError "key may not be None")) ∧
    (∀ (rate : ℚ) (capacity : ℤ) (s : Buckets) (nt : Option ℤ) (now : ℚ),
        Limiter.consume rate capacity s (some "") nt now =
          .error (.valueError "key must not be a non-empty string or bytestring")) ∧
    (∀ (rate : ℚ) (capacity : ℤ) (s : Buckets) (k : String) (now : ℚ),
        k ≠ "" →
        Limiter.consume rate capacity s (some k) none now =
          .error (.typeError "num_tokens may not be None")) ∧
    (∀ (rate : ℚ) (capacity : ℤ) (s : Buckets) (k : String) (n : ℤ) (now : ℚ),
        k ≠ "" → n < 1 →
        Limiter.consume rate capacity s (some k) (some n) now =
          .error (.valueError "num_tokens must be >= 1")) := by
  refine ⟨?_, ?_, ?_, ?_, ?_, ?_, ?_, ?_, ?_⟩
  · intro rate capacity st h
    simp [Limiter.init, h]
  · intro rate capacity st h1 h2
    simp [Limiter.init, h1, h2]
  · intro rate capacity st h1 h2 h3
    simp [Limiter.init, h1, not_le.mpr h2, h3]
  · intro rate capacity st h1 h2 h3 h4
    simp [Limiter.init, h1, not_le.mpr h2, h3, h4]
  · intro rate capacity h1 h2 h3 h4
    simp [Limiter.init, h1, not_le.mpr h2, h3, not_lt.mpr h4]
  · intro rate capacity s nt now
    rfl
  · intro rate capacity s nt now
    rfl
  · intro rate capacity s k now hk
    simp [Limiter.consume, hk]
  · intro rate capacity s k n now hk hn
    simp [Limiter.consume, hk, hn]

/-- C7 witness: one concrete input per error case. -/
theorem limiter_error_kinds_witness :
    ((PyVal.vStr "x").isNumeric = false ∧
      Limiter.init (.vStr "x") (.vInt 5) true =
        .error (.typeError "rate must be an int or float")) ∧
    ((PyVal.vInt 0).isNumeric = true ∧ (PyVal.vInt 0).toRat ≤ 0 ∧
      Limiter.init (.vInt 0) (.vInt 5) true =
        .error (.valueError "rate must be > 0")) ∧
    ((PyVal.vInt 2).isNumeric = true ∧ 0 < (PyVal.vInt 2).toRat ∧
      (PyVal.vFloat 3).isInt = false ∧
      Limiter.init (.vInt 2) (.vFloat 3) true =
        .error (.typeError "capacity must be an int")) ∧
    ((PyVal.vInt 2).isNumeric = true ∧ 0 < (PyVal.vInt 2).toRat ∧
      (PyVal.vInt 0).isInt = true ∧ (PyVal.vInt 0).toInt < 1 ∧
      Limiter.init (.vInt 2) (.vInt 0) true =
        .error (.valueError "capacity must be >= 1")) ∧
    ((PyVal.vInt 2).isNumeric = true ∧ 0 < (PyVal.vInt 2).toRat ∧
      (PyVal.vInt 5).isInt = true ∧ 1 ≤ (PyVal.vInt 5).toInt ∧
      Limiter.init (.vInt 2) (.vInt 5) false =
        .error (.typeError "storage must be a subclass of StorageBase")) ∧
    (Limiter.consume 1 1 [] none (some 1) 0 =
      .error (.typeError "key may not be None")) ∧
    (Limiter.consume 1 1 [] (some "") (some 1) 0 =
      .error (.valueError "key must not be a non-empty string or bytestring")) ∧
    ("k" ≠ "" ∧
      Limiter.consume 1 1 [] (some "k") none 0 =
        .error (.typeError "num_tokens may not be None")) ∧
    ("k" ≠ "" ∧ (0 : ℤ) < 1 ∧
      Limiter.consume 1 1 [] (some "k") (some 0) 0 =
        .error (.valueError "num_tokens must be >= 1")) :=
  ⟨⟨rfl, limiter_error_kinds.1 (.vStr "x") (.vInt 5) true rfl⟩,
    ⟨rfl, by norm_num [PyVal.toRat],
      limiter_error_kinds.2.1 (.vInt 0) (.vInt 5) true rfl
        (by norm_num [PyVal.toRat])⟩,
    ⟨rfl, by norm_num [PyVal.toRat], rfl,
      limiter_error_kinds.2.2.1 (.vInt 2) (.vFloat 3) true rfl
        (by norm_num [PyVal.toRat]) rfl⟩,
    ⟨rfl, by norm_num [PyVal.toRat], rfl, by norm_num [PyVal.toInt],
      limiter_error_kinds.2.2.2.1 (.vInt 2) (.vInt 0) true rfl
        (by norm_num [PyVal.toRat]) rfl (by norm_num [PyVal.toInt])⟩,
    ⟨rfl, by norm_num [PyVal.toRat], rfl, by norm_num [PyVal.toInt],
      limiter_error_kinds.2.2.2.2.1 (.vInt 2) (.vInt 5) rfl
        (by norm_num [PyVal.toRat]) rfl (by norm_num [PyVal.toInt])⟩,
    limiter_error_kinds.2.2.2.2.2.1 1 1 [] (some 1) 0,
    limiter_error_kinds.2.2.2.2.2.2.1 1 1 [] (some 1) 0,
    ⟨by decide,
      limiter_error_kinds.2.2.2.2.2.2.2.1 1 1 [] "k" 0 (by decide)⟩,
    ⟨by decide, by norm_num,
      limiter_error_kinds.2.2.2.2.2.2.2.2 1 1 [] "k" 0 0 (by decide)
        (by norm_num)⟩⟩
